import Mathlib

/-!
Verification of the Dayflow HRMS authorization core: the role-permission
table and evaluator (lib/rbac), the request authenticator, the route-guard
middleware, and the attendance API handlers that consume them.

The TypeScript source is shallowly embedded: external effects (the cookie
read and the user-store query, which the source wraps in try/catch) are
passed in as explicit `Except`/`Option`-valued environment fields, and
JavaScript falsiness of strings (`if (!token)`, `if (userId && ...)`) is
modelled as the explicit test against the empty string.
-/

namespace Dayflow

/-- The `AuthenticatedUser` interface of lib/rbac: id, email, role,
firstName, lastName, all strings. -/
structure AuthenticatedUser where
  id : String
  email : String
  role : String
  firstName : String
  lastName : String
deriving DecidableEq, Repr

/-- The `Permission` interface: a (resource, action) pair of string tags. -/
structure Permission where
  resource : String
  action : String
deriving DecidableEq, Repr

/-- The `admin` entry of the ROLE_PERMISSIONS table. -/
def adminPermissions : List Permission := [
  ⟨"attendance", "view_all"⟩,
  ⟨"attendance", "approve"⟩,
  ⟨"attendance", "edit"⟩,
  ⟨"attendance", "export"⟩,
  ⟨"leave", "view_all"⟩,
  ⟨"leave", "approve"⟩,
  ⟨"leave", "reject"⟩,
  ⟨"leave", "export"⟩,
  ⟨"payroll", "view_all"⟩,
  ⟨"payroll", "edit"⟩,
  ⟨"payroll", "export"⟩,
  ⟨"employees", "view_all"⟩,
  ⟨"employees", "create"⟩,
  ⟨"employees", "edit"⟩,
  ⟨"employees", "delete"⟩,
  ⟨"documents", "view_all"⟩,
  ⟨"documents", "upload"⟩,
  ⟨"documents", "delete"⟩]

/-- The `hr` entry of the ROLE_PERMISSIONS table. -/
def hrPermissions : List Permission := [
  ⟨"attendance", "view_all"⟩,
  ⟨"attendance", "approve"⟩,
  ⟨"attendance", "export"⟩,
  ⟨"leave", "view_all"⟩,
  ⟨"leave", "approve"⟩,
  ⟨"leave", "reject"⟩,
  ⟨"leave", "export"⟩,
  ⟨"payroll", "view_all"⟩,
  ⟨"payroll", "export"⟩,
  ⟨"employees", "view_all"⟩,
  ⟨"employees", "edit"⟩,
  ⟨"documents", "view_all"⟩,
  ⟨"documents", "upload"⟩]

/-- The `employee` entry of the ROLE_PERMISSIONS table. -/
def employeePermissions : List Permission := [
  ⟨"attendance", "view_own"⟩,
  ⟨"attendance", "check_in"⟩,
  ⟨"attendance", "check_out"⟩,
  ⟨"leave", "apply"⟩,
  ⟨"leave", "view_own"⟩,
  ⟨"payroll", "view_own"⟩,
  ⟨"documents", "view_own"⟩,
  ⟨"documents", "upload"⟩]

/-- The lookup `ROLE_PERMISSIONS[role] || []`: the static table has exactly
the keys admin, hr, employee; any other key yields the empty list. -/
def ROLE_PERMISSIONS (role : String) : List Permission :=
  match role with
  | "admin" => adminPermissions
  | "hr" => hrPermissions
  | "employee" => employeePermissions
  | _ => []

/-- `hasPermission(user, resource, action)`: true iff the permission list
for the user's role contains an entry with this exact resource and action. -/
def hasPermission (user : AuthenticatedUser) (resource action : String) : Bool :=
  (ROLE_PERMISSIONS user.role).any fun p => p.resource == resource && p.action == action

/-- The `{ error?, status? }` result of the curried guards: `none` stands
for the empty success marker, `some (e, s)` for the error payload. -/
abbrev GuardCheck := Option (String × Nat)

/-- `requirePermission(resource, action)` applied to a user. -/
def requirePermission (resource action : String) (user : AuthenticatedUser) : GuardCheck :=
  if !hasPermission user resource action then
    some ("Insufficient permissions", 403)
  else
    none

/-- `requireRole(allowedRoles)` applied to a user. -/
def requireRole (allowedRoles : List String) (user : AuthenticatedUser) : GuardCheck :=
  if !allowedRoles.contains user.role then
    some ("Insufficient permissions", 403)
  else
    none

/-- `canViewAllAttendance`: hasPermission with (attendance, view_all). -/
def canViewAllAttendance (user : AuthenticatedUser) : Bool :=
  hasPermission user "attendance" "view_all"

/-- `canViewOwnAttendance`: hasPermission with (attendance, view_own). -/
def canViewOwnAttendance (user : AuthenticatedUser) : Bool :=
  hasPermission user "attendance" "view_own"

/-- The verified token payload: the claims authenticateRequest and the
middleware read from it, `userId` and `role`. -/
structure TokenPayload where
  userId : String
  role : String
deriving DecidableEq, Repr

/-- A row of the `users` table, with the columns the authenticator selects. -/
structure UserRecord where
  id : String
  email : String
  role : String
  first_name : String
  last_name : String
deriving DecidableEq, Repr

/-- Result of `authenticateRequest`: either `{ user }` or `{ error, status }`. -/
inductive AuthResult where
  | ok (user : AuthenticatedUser)
  | err (error : String) (status : Nat)
deriving DecidableEq, Repr

/-- The per-request environment of authenticateRequest. `cookie` is the
awaited getAuthCookie() call and `dbUsers` the users-table read; each is
`Except Unit` because either external call may throw, landing in the
function's catch block. `verify` is verifyToken, which by the token-codec
contract returns null rather than throwing. -/
structure AuthEnv where
  cookie : Except Unit (Option String)
  verify : String → Option TokenPayload
  dbUsers : Except Unit (List UserRecord)

/-- `authenticateRequest`. The `!token` test is JavaScript-falsy, so a
present cookie with empty value also yields the missing-token error. The
select with `where(eq(users.id, payload.userId)).limit(1)` destructured to
its first row is `List.find?` on the id column. -/
def authenticateRequest (env : AuthEnv) : AuthResult :=
  match env.cookie with
  | .error _ => .err "Authentication failed" 500
  | .ok none => .err "No authentication token found" 401
  | .ok (some token) =>
    if token == "" then .err "No authentication token found" 401
    else
      match env.verify token with
      | none => .err "Invalid token" 401
      | some payload =>
        match env.dbUsers with
        | .error _ => .err "Authentication failed" 500
        | .ok rows =>
          match rows.find? fun u => u.id == payload.userId with
          | none => .err "User not found" 404
          | some u => .ok ⟨u.id, u.email, u.role, u.first_name, u.last_name⟩

/-- JavaScript String.prototype.startsWith, as used by the middleware for
prefix matching: the needle's characters are a prefix of the string's. -/
def strStartsWith (s pre : String) : Bool := pre.data.isPrefixOf s.data

/-- The `publicRoutes` list of middleware.ts. -/
def publicRoutes : List String := [
  "/auth/login",
  "/auth/register",
  "/api/auth/login",
  "/api/auth/register",
  "/api/auth/logout"]

/-- The `roleBasedRoutes` object of middleware.ts, in declaration order
(Object.keys iteration order for string keys). -/
def roleBasedRoutes : List (String × List String) := [
  ("/employees", ["hr", "admin"]),
  ("/reports", ["hr", "admin"]),
  ("/settings", ["admin"]),
  ("/api/employees", ["hr", "admin"]),
  ("/api/reports", ["hr", "admin"]),
  ("/api/users", ["hr", "admin"])]

/-- The attribute set passed to response.cookies.set when the middleware
clears the token. -/
structure CookieSetting where
  name : String
  value : String
  httpOnly : Bool
  secure : Bool
  sameSite : String
  maxAge : Nat
  path : String
deriving DecidableEq, Repr

/-- The terminal outcomes of the middleware: NextResponse.next(), or a
redirect to a location, optionally also setting a cookie. -/
inductive GuardOutcome where
  | next
  | redirect (location : String) (setCookie : Option CookieSetting)
deriving DecidableEq, Repr

/-- The per-request environment of the middleware: the getAuthCookie()
value, verifyToken, and the NODE_ENV production flag that decides the
`secure` cookie attribute. -/
structure GuardEnv where
  cookie : Option String
  verify : String → Option TokenPayload
  isProduction : Bool

/-- The cookie written by the middleware to clear an invalid token:
`auth-token` set to the empty value with maxAge 0. -/
def clearedAuthCookie (isProduction : Bool) : CookieSetting :=
  ⟨"auth-token", "", true, isProduction, "lax", 0, "/"⟩

/-- The middleware's no-token branch: redirect to login for the
hand-enumerated protected prefixes, otherwise NextResponse.next(). -/
def middlewareNoToken (pathname : String) : GuardOutcome :=
  if strStartsWith pathname "/app/" || strStartsWith pathname "/api/" ||
      pathname == "/" || strStartsWith pathname "/dashboard" ||
      strStartsWith pathname "/attendance" || strStartsWith pathname "/documents" ||
      strStartsWith pathname "/leave" || strStartsWith pathname "/payroll" then
    GuardOutcome.redirect "/auth/login" none
  else
    GuardOutcome.next

/-- `middleware(request)` on a request with the given pathname. The
`!token` test is JavaScript-falsy, so an empty cookie value takes the
no-token branch. The role-gated lookup is the first declared prefix match,
as `Object.keys(roleBasedRoutes).find(...)`. -/
def middleware (env : GuardEnv) (pathname : String) : GuardOutcome :=
  if publicRoutes.any (fun route => strStartsWith pathname route) then
    GuardOutcome.next
  else
    match env.cookie with
    | none => middlewareNoToken pathname
    | some token =>
      if token == "" then middlewareNoToken pathname
      else
        match env.verify token with
        | none =>
          GuardOutcome.redirect "/auth/login" (some (clearedAuthCookie env.isProduction))
        | some payload =>
          match roleBasedRoutes.find? (fun rule => strStartsWith pathname rule.1) with
          | some rule =>
            if rule.2.contains payload.role then GuardOutcome.next
            else GuardOutcome.redirect "/dashboard?error=insufficient_permissions" none
          | none => GuardOutcome.next

/-- A row of the `attendance` table, with the columns the handlers touch.
Timestamps are kept as the strings the request supplied; dates are the
ISO date strings compared by the gte/lte conditions. -/
structure AttendanceRow where
  user_id : String
  date : String
  check_in : Option String
  check_out : Option String
  status : String
  notes : Option String
deriving DecidableEq, Repr

/-- JavaScript truthiness of `x ? ... : null` on a nullable string: an
absent value and the empty string are both falsy, collapsed to null. -/
def jsStringOrNull (x : Option String) : Option String :=
  match x with
  | none => none
  | some s => if s == "" then none else some s

/-- The parsed JSON body of POST /api/attendance. -/
structure PostBody where
  date : Option String
  checkIn : Option String
  checkOut : Option String
  notes : Option String
deriving DecidableEq, Repr

/-- Outcome of POST /api/attendance: a JSON error with a status, or the
201 response with the inserted record. -/
inductive PostResult where
  | errorRes (error : String) (status : Nat)
  | created (record : AttendanceRow)
deriving DecidableEq, Repr

/-- `POST /api/attendance`: per-handler authentication, the
requirePermission('attendance','check_in') gate, the falsy `!date` check,
then the insert. Returns the response together with the attendance table
after the call (the insert appends the new row; every error path leaves
the table unchanged). `body` is the awaited request.json(), Except because
parsing may throw into the handler's catch block. -/
def attendancePOST (auth : AuthResult) (body : Except Unit PostBody)
    (store : List AttendanceRow) : PostResult × List AttendanceRow :=
  match auth with
  | .err e s => (.errorRes e s, store)
  | .ok user =>
    match requirePermission "attendance" "check_in" user with
    | some (e, s) => (.errorRes e s, store)
    | none =>
      match body with
      | .error _ => (.errorRes "Internal server error" 500, store)
      | .ok b =>
        match b.date with
        | none => (.errorRes "Date is required" 400, store)
        | some d =>
          if d == "" then (.errorRes "Date is required" 400, store)
          else
            let newRecord : AttendanceRow :=
              ⟨user.id, d, jsStringOrNull b.checkIn, jsStringOrNull b.checkOut,
                "present", jsStringOrNull b.notes⟩
            (.created newRecord, store ++ [newRecord])

/-- Outcome of GET /api/attendance: a JSON error with a status, or the
list of attendance records of the response. -/
inductive GetResult where
  | errorRes (error : String) (status : Nat)
  | records (rows : List AttendanceRow)
deriving DecidableEq, Repr

/-- The where-conditions the GET handler pushes into the select: the
user filter only when effectiveUserId is truthy (non-null, non-empty), the
date range only when both bounds are truthy. -/
def rowMatches (effectiveUserId fromP toP : Option String) (r : AttendanceRow) : Bool :=
  (match effectiveUserId with
   | none => true
   | some uid => if uid == "" then true else r.user_id == uid) &&
  (match fromP, toP with
   | some f, some t => if f == "" || t == "" then true else f ≤ r.date && r.date ≤ t
   | _, _ => true)

/-- Insert one row into a list kept in descending date order. -/
def insertDateDesc (r : AttendanceRow) : List AttendanceRow → List AttendanceRow
  | [] => [r]
  | x :: xs => if x.date ≤ r.date then r :: x :: xs else x :: insertDateDesc r xs

/-- `orderBy(desc(attendance.date))` as an insertion sort. -/
def sortByDateDesc : List AttendanceRow → List AttendanceRow
  | [] => []
  | x :: xs => insertDateDesc x (sortByDateDesc xs)

/-- The select the GET handler runs: where-conditions, then date-descending
order. The per-record projection of the response (workHours formatting and
the joined user sub-object) maps each row one-to-one and is kept as the
row itself. -/
def attendanceSelect (effectiveUserId fromP toP : Option String)
    (store : List AttendanceRow) : List AttendanceRow :=
  sortByDateDesc (store.filter (rowMatches effectiveUserId fromP toP))

/-- `GET /api/attendance` with query parameters userId, from, to. The
view_all branch passes the userId parameter through as the filter; the
view_own branch forces the caller's own id, rejecting a truthy userId
parameter that differs from it (`if (userId && userId !== auth.user.id)`);
any other role is rejected outright. -/
def attendanceGET (auth : AuthResult) (userIdParam fromP toP : Option String)
    (store : List AttendanceRow) : GetResult :=
  match auth with
  | .err e s => .errorRes e s
  | .ok user =>
    if canViewAllAttendance user then
      .records (attendanceSelect userIdParam fromP toP store)
    else if canViewOwnAttendance user then
      match userIdParam with
      | some uid =>
        if uid != "" && uid != user.id then
          .errorRes "Insufficient permissions" 403
        else
          .records (attendanceSelect (some user.id) fromP toP store)
      | none => .records (attendanceSelect (some user.id) fromP toP store)
    else
      .errorRes "Insufficient permissions" 403

/-! Sample users, token payloads and rows used by witnesses and
counterexamples. -/

/-- A sample admin-role user. -/
def exAdmin : AuthenticatedUser := ⟨"ua", "a@x.com", "admin", "Ada", "Admin"⟩

/-- A sample hr-role user. -/
def exHr : AuthenticatedUser := ⟨"uh", "h@x.com", "hr", "Hal", "Hr"⟩

/-- A sample employee-role user. -/
def exEmployee : AuthenticatedUser := ⟨"ue", "e@x.com", "employee", "Eve", "Emp"⟩

/-- A sample user with a role outside the table. -/
def exGuest : AuthenticatedUser := ⟨"ug", "g@x.com", "guest", "Gil", "Guest"⟩

/-! Helper lemmas shared by several claims. -/

/-- hasPermission is exactly membership of the (resource, action) pair in
the role's declared permission list. -/
theorem hasPermission_iff_mem (user : AuthenticatedUser) (resource action : String) :
    hasPermission user resource action = true ↔
      Permission.mk resource action ∈ ROLE_PERMISSIONS user.role := by
  unfold hasPermission
  rw [List.any_eq_true]
  constructor
  · rintro ⟨p, hp, hq⟩
    obtain ⟨r, a⟩ := p
    simp only [Bool.and_eq_true, beq_iff_eq] at hq
    obtain ⟨h1, h2⟩ := hq
    subst h1
    subst h2
    exact hp
  · intro h
    exact ⟨_, h, by simp⟩

/-- A role that is none of admin, hr, employee has the empty permission
list. -/
theorem ROLE_PERMISSIONS_unknown (role : String) (ha : role ≠ "admin")
    (hh : role ≠ "hr") (he : role ≠ "employee") : ROLE_PERMISSIONS role = [] := by
  unfold ROLE_PERMISSIONS
  split <;> simp_all

/-- Claim C2: hasPermission(user, resource, action) is true iff the static
role-permission table's entry for user.role contains the exact
(resource, action) pair; for any role other than admin, hr, employee the
permission set is empty and hasPermission is false for every pair. -/
theorem hasPermission_correct (user : AuthenticatedUser) (resource action : String) :
    (hasPermission user resource action = true ↔
      Permission.mk resource action ∈ ROLE_PERMISSIONS user.role) ∧
    (user.role ≠ "admin" → user.role ≠ "hr" → user.role ≠ "employee" →
      ROLE_PERMISSIONS user.role = [] ∧ hasPermission user resource action = false) := by
  refine ⟨hasPermission_iff_mem user resource action, fun ha hh he => ?_⟩
  have h0 := ROLE_PERMISSIONS_unknown user.role ha hh he
  refine ⟨h0, ?_⟩
  unfold hasPermission
  rw [h0]
  rfl

/-- Witness for C2: a guest-role user has the empty permission set and no
permission at all; an admin does hold (attendance, view_all). -/
theorem hasPermission_correct_witness :
    (ROLE_PERMISSIONS exGuest.role = [] ∧
      hasPermission exGuest "attendance" "view_all" = false) ∧
    hasPermission exAdmin "attendance" "view_all" = true :=
  ⟨(hasPermission_correct exGuest "attendance" "view_all").2
      (by decide) (by decide) (by decide),
    (hasPermission_correct exAdmin "attendance" "view_all").1.mpr (by decide)⟩

/-- Claim C7: requirePermission(resource, action) applied to a user yields
the empty marker exactly when hasPermission holds and the 403 payload
otherwise; requireRole(allowedRoles) yields the empty marker exactly when
the user's role is in allowedRoles and the same 403 payload otherwise. -/
theorem requireGuards_correct (resource action : String) (allowedRoles : List String)
    (user : AuthenticatedUser) :
    (hasPermission user resource action = true →
      requirePermission resource action user = none) ∧
    (hasPermission user resource action = false →
      requirePermission resource action user = some ("Insufficient permissions", 403)) ∧
    (allowedRoles.contains user.role = true → requireRole allowedRoles user = none) ∧
    (allowedRoles.contains user.role = false →
      requireRole allowedRoles user = some ("Insufficient permissions", 403)) := by
  refine ⟨fun h => ?_, fun h => ?_, fun h => ?_, fun h => ?_⟩ <;>
    simp [requirePermission, requireRole, h] <;> simpa using h

/-- Witness for C7: an admin passes the (attendance, view_all) permission
guard; an employee fails the hr-or-admin role guard with the 403 payload. -/
theorem requireGuards_correct_witness :
    requirePermission "attendance" "view_all" exAdmin = none ∧
    requireRole ["hr", "admin"] exEmployee = some ("Insufficient permissions", 403) :=
  ⟨(requireGuards_correct "attendance" "view_all" ["hr", "admin"] exAdmin).1 (by decide),
    (requireGuards_correct "attendance" "view_all" ["hr", "admin"] exEmployee).2.2.2
      (by decide)⟩

/-- A verifier accepting the single token "tok" with an admin role claim
for user u1. -/
def c1Verify : String → Option TokenPayload :=
  fun t => if t == "tok" then some ⟨"u1", "admin"⟩ else none

/-- The u1 row of the users table: its stored role is employee, differing
from the admin role claim c1Verify places in the token. -/
def c1Row : UserRecord := ⟨"u1", "e@x.com", "employee", "Eve", "Emp"⟩

/-- An authenticator environment where the request carries "tok" and the
store holds exactly c1Row. -/
def c1Env : AuthEnv := ⟨.ok (some "tok"), c1Verify, .ok [c1Row]⟩

/-- Counterexample to C1: the token "tok" verifies with role claim
"admin", yet authenticateRequest returns the user resolved from the store,
whose role is "employee" — the returned role is read from the user record,
not from the token, so a valid token carrying role R need not yield a user
of role R. -/
theorem authenticateRequest_role_counterexample :
    c1Verify "tok" = some ⟨"u1", "admin"⟩ ∧
    authenticateRequest c1Env = .ok ⟨"u1", "e@x.com", "employee", "Eve", "Emp"⟩ ∧
    ("employee" : String) ≠ "admin" := by
  refine ⟨by decide, by decide, by decide⟩

/-- Claim C1 (amended): authenticateRequest returns exactly the structured
failures of the claim — 401 missing token, 401 invalid token (never a
user), 404 unknown userId, 500 on an unexpected fault in the cookie read
or the store lookup — and otherwise the fully populated user built from
the store record the token's userId resolves to; the returned role is that
record's stored role (which equals the token's role claim R only when the
store agrees with the claim). -/
theorem authenticateRequest_branches (cookie : Except Unit (Option String))
    (verify : String → Option TokenPayload) (dbUsers : Except Unit (List UserRecord)) :
    (cookie = .error () →
      authenticateRequest ⟨cookie, verify, dbUsers⟩ = .err "Authentication failed" 500) ∧
    (cookie = .ok none →
      authenticateRequest ⟨cookie, verify, dbUsers⟩ =
        .err "No authentication token found" 401) ∧
    (∀ t, cookie = .ok (some t) → t ≠ "" → verify t = none →
      authenticateRequest ⟨cookie, verify, dbUsers⟩ = .err "Invalid token" 401) ∧
    (∀ t p, cookie = .ok (some t) → t ≠ "" → verify t = some p → dbUsers = .error () →
      authenticateRequest ⟨cookie, verify, dbUsers⟩ = .err "Authentication failed" 500) ∧
    (∀ t p rows, cookie = .ok (some t) → t ≠ "" → verify t = some p → dbUsers = .ok rows →
      rows.find? (fun u => u.id == p.userId) = none →
      authenticateRequest ⟨cookie, verify, dbUsers⟩ = .err "User not found" 404) ∧
    (∀ t p rows u, cookie = .ok (some t) → t ≠ "" → verify t = some p → dbUsers = .ok rows →
      rows.find? (fun u => u.id == p.userId) = some u →
      authenticateRequest ⟨cookie, verify, dbUsers⟩ =
        .ok ⟨u.id, u.email, u.role, u.first_name, u.last_name⟩) := by
  refine ⟨fun h => ?_, fun h => ?_, fun t h ht hv => ?_, fun t p h ht hv hd => ?_,
    fun t p rows h ht hv hd hf => ?_, fun t p rows u h ht hv hd hf => ?_⟩ <;>
      subst h
  · rfl
  · rfl
  · simp only [authenticateRequest]
    rw [if_neg (by simpa using ht), hv]
  · subst hd
    simp only [authenticateRequest]
    rw [if_neg (by simpa using ht), hv]
  · subst hd
    have ht' : (t == "") = false := by simpa using ht
    simp [authenticateRequest, ht', hv, hf]
  · subst hd
    have ht' : (t == "") = false := by simpa using ht
    simp [authenticateRequest, ht', hv, hf]

/-- Witness for C1: in a concrete environment, a missing cookie yields the
401 missing-token error, and the token "tok" resolves to c1Row's user. -/
theorem authenticateRequest_branches_witness :
    authenticateRequest ⟨.ok none, c1Verify, .ok [c1Row]⟩ =
      .err "No authentication token found" 401 ∧
    authenticateRequest ⟨.ok (some "tok"), c1Verify, .ok [c1Row]⟩ =
      .ok ⟨"u1", "e@x.com", "employee", "Eve", "Emp"⟩ :=
  ⟨(authenticateRequest_branches (.ok none) c1Verify (.ok [c1Row])).2.1 rfl,
    (authenticateRequest_branches (.ok (some "tok")) c1Verify (.ok [c1Row])).2.2.2.2.2
      "tok" ⟨"u1", "admin"⟩ [c1Row] c1Row rfl (by decide) (by decide) rfl (by decide)⟩

/-- Claim C8: authenticateRequest is deterministic per request state: with
the same cookie, verifier and user-store state, any two successful results
agree on every field of the returned user identity. -/
theorem authenticateRequest_deterministic (env : AuthEnv) (u₁ u₂ : AuthenticatedUser)
    (h₁ : authenticateRequest env = .ok u₁) (h₂ : authenticateRequest env = .ok u₂) :
    u₁.id = u₂.id ∧ u₁.email = u₂.email ∧ u₁.role = u₂.role ∧
      u₁.firstName = u₂.firstName ∧ u₁.lastName = u₂.lastName := by
  rw [h₁] at h₂
  injection h₂ with h
  subst h
  exact ⟨rfl, rfl, rfl, rfl, rfl⟩

/-- A verifier accepting the single token "tk8" for user u1 with an
employee role claim. -/
def c8Verify : String → Option TokenPayload :=
  fun t => if t == "tk8" then some ⟨"u1", "employee"⟩ else none

/-- The authenticator environment of the C8 witness. -/
def c8Env : AuthEnv := ⟨.ok (some "tk8"), c8Verify, .ok [c1Row]⟩

/-- Witness for C8: two calls of authenticateRequest on the same concrete
valid-token environment agree on every identity field. -/
theorem authenticateRequest_deterministic_witness :
    (⟨"u1", "e@x.com", "employee", "Eve", "Emp"⟩ : AuthenticatedUser).id =
      (⟨"u1", "e@x.com", "employee", "Eve", "Emp"⟩ : AuthenticatedUser).id ∧
    (⟨"u1", "e@x.com", "employee", "Eve", "Emp"⟩ : AuthenticatedUser).email =
      (⟨"u1", "e@x.com", "employee", "Eve", "Emp"⟩ : AuthenticatedUser).email ∧
    (⟨"u1", "e@x.com", "employee", "Eve", "Emp"⟩ : AuthenticatedUser).role =
      (⟨"u1", "e@x.com", "employee", "Eve", "Emp"⟩ : AuthenticatedUser).role ∧
    (⟨"u1", "e@x.com", "employee", "Eve", "Emp"⟩ : AuthenticatedUser).firstName =
      (⟨"u1", "e@x.com", "employee", "Eve", "Emp"⟩ : AuthenticatedUser).firstName ∧
    (⟨"u1", "e@x.com", "employee", "Eve", "Emp"⟩ : AuthenticatedUser).lastName =
      (⟨"u1", "e@x.com", "employee", "Eve", "Emp"⟩ : AuthenticatedUser).lastName :=
  authenticateRequest_deterministic c8Env
    ⟨"u1", "e@x.com", "employee", "Eve", "Emp"⟩
    ⟨"u1", "e@x.com", "employee", "Eve", "Emp"⟩ (by decide) (by decide)

/-- A verifier that rejects every token. -/
def rejectAllVerify : String → Option TokenPayload := fun _ => none

/-- A verifier mapping the token "emp" to an employee role claim and
"hrtok" to an hr role claim. -/
def roleVerify : String → Option TokenPayload :=
  fun t =>
    if t == "emp" then some ⟨"ue", "employee"⟩
    else if t == "hrtok" then some ⟨"uh", "hr"⟩
    else none

/-- Claim C3: with no credential on a non-public path, the middleware
redirects to /auth/login exactly for paths starting with /app/ or /api/,
equal to /, or starting with /dashboard, /attendance, /documents, /leave
or /payroll; every other path — /employees, /reports and /settings
included — passes through unauthenticated. -/
theorem middleware_absent_credential (verify : String → Option TokenPayload)
    (prod : Bool) (pathname : String)
    (hpub : publicRoutes.any (fun route => strStartsWith pathname route) = false) :
    (middleware ⟨none, verify, prod⟩ pathname = .redirect "/auth/login" none ↔
      (strStartsWith pathname "/app/" || strStartsWith pathname "/api/" ||
        pathname == "/" || strStartsWith pathname "/dashboard" ||
        strStartsWith pathname "/attendance" || strStartsWith pathname "/documents" ||
        strStartsWith pathname "/leave" || strStartsWith pathname "/payroll") = true) ∧
    (middleware ⟨none, verify, prod⟩ pathname = .next ↔
      (strStartsWith pathname "/app/" || strStartsWith pathname "/api/" ||
        pathname == "/" || strStartsWith pathname "/dashboard" ||
        strStartsWith pathname "/attendance" || strStartsWith pathname "/documents" ||
        strStartsWith pathname "/leave" || strStartsWith pathname "/payroll") = false) ∧
    middleware ⟨none, verify, prod⟩ "/employees" = .next ∧
    middleware ⟨none, verify, prod⟩ "/reports" = .next ∧
    middleware ⟨none, verify, prod⟩ "/settings" = .next := by
  have hmain : middleware ⟨none, verify, prod⟩ pathname = middlewareNoToken pathname := by
    simp [middleware, hpub]
  refine ⟨?_, ?_, rfl, rfl, rfl⟩ <;>
    rw [hmain] <;>
    unfold middlewareNoToken <;>
    split <;>
    rename_i hcond <;>
    (try simp only [Bool.not_eq_true] at hcond) <;>
    simp [hcond]

/-- Witness for C3: with no credential, /dashboard redirects to login and
/employees passes through. -/
theorem middleware_absent_credential_witness :
    middleware ⟨none, rejectAllVerify, false⟩ "/dashboard" = .redirect "/auth/login" none ∧
    middleware ⟨none, rejectAllVerify, false⟩ "/employees" = .next :=
  ⟨(middleware_absent_credential rejectAllVerify false "/dashboard" (by decide)).1.mpr
      (by decide),
    (middleware_absent_credential rejectAllVerify false "/dashboard" (by decide)).2.2.1⟩

/-- Claim C4: on a non-public path with a present token that fails
verification, the middleware redirects to /auth/login and clears the
auth-token cookie: empty value, httpOnly, sameSite lax, maxAge 0,
path /. -/
theorem middleware_invalid_token (verify : String → Option TokenPayload)
    (prod : Bool) (pathname t : String)
    (hpub : publicRoutes.any (fun route => strStartsWith pathname route) = false)
    (ht : t ≠ "") (hv : verify t = none) :
    middleware ⟨some t, verify, prod⟩ pathname =
      .redirect "/auth/login" (some ⟨"auth-token", "", true, prod, "lax", 0, "/"⟩) := by
  have ht' : (t == "") = false := by simpa using ht
  simp [middleware, hpub, ht', hv, clearedAuthCookie]

/-- Witness for C4: a corrupted token on /dashboard redirects to login
with the clearing Set-Cookie. -/
theorem middleware_invalid_token_witness :
    middleware ⟨some "bad", rejectAllVerify, false⟩ "/dashboard" =
      .redirect "/auth/login" (some ⟨"auth-token", "", true, false, "lax", 0, "/"⟩) :=
  middleware_invalid_token rejectAllVerify false "/dashboard" "bad"
    (by decide) (by decide) (by decide)

/-- Claim C5: with a valid token on a non-public path whose first matching
role-gated rule is `rule`, the middleware redirects to
/dashboard?error=insufficient_permissions when the token's role is not in
the rule's allowed set and passes the request through when it is. -/
theorem middleware_role_gate (verify : String → Option TokenPayload)
    (prod : Bool) (pathname t : String) (payload : TokenPayload)
    (rule : String × List String)
    (hpub : publicRoutes.any (fun route => strStartsWith pathname route) = false)
    (ht : t ≠ "") (hv : verify t = some payload)
    (hrule : roleBasedRoutes.find? (fun r => strStartsWith pathname r.1) = some rule) :
    (rule.2.contains payload.role = false →
      middleware ⟨some t, verify, prod⟩ pathname =
        .redirect "/dashboard?error=insufficient_permissions" none) ∧
    (rule.2.contains payload.role = true →
      middleware ⟨some t, verify, prod⟩ pathname = .next) := by
  have ht' : (t == "") = false := by simpa using ht
  constructor <;> intro hrole <;> simp [middleware, hpub, ht', hv, hrule, hrole] <;>
    simpa using hrole

/-- Witness for C5: on /employees — a role-gated route allowing hr and
admin — a valid employee-role token is redirected to
/dashboard?error=insufficient_permissions while a valid hr-role token
passes through. -/
theorem middleware_role_gate_witness :
    middleware ⟨some "emp", roleVerify, false⟩ "/employees" =
      .redirect "/dashboard?error=insufficient_permissions" none ∧
    middleware ⟨some "hrtok", roleVerify, false⟩ "/employees" = .next :=
  ⟨(middleware_role_gate roleVerify false "/employees" "emp" ⟨"ue", "employee"⟩
      ("/employees", ["hr", "admin"]) (by decide) (by decide) (by decide) (by decide)).1
      (by decide),
    (middleware_role_gate roleVerify false "/employees" "hrtok" ⟨"uh", "hr"⟩
      ("/employees", ["hr", "admin"]) (by decide) (by decide) (by decide) (by decide)).2
      (by decide)⟩

/-- Claim C6: on a path starting with one of the five public-route
prefixes the middleware passes the request through unconditionally: the
outcome is NextResponse.next() for every cookie state, verifier and
environment, so no credential read, token verification or role check can
influence it. -/
theorem middleware_public_bypass (env : GuardEnv) (pathname : String)
    (h : strStartsWith pathname "/auth/login" = true ∨
      strStartsWith pathname "/auth/register" = true ∨
      strStartsWith pathname "/api/auth/login" = true ∨
      strStartsWith pathname "/api/auth/register" = true ∨
      strStartsWith pathname "/api/auth/logout" = true) :
    middleware env pathname = .next ∧
    (∀ envAlt : GuardEnv, middleware env pathname = middleware envAlt pathname) := by
  have hpub : publicRoutes.any (fun route => strStartsWith pathname route) = true := by
    simp only [publicRoutes, List.any_cons, List.any_nil, Bool.or_eq_true,
      Bool.or_false]
    tauto
  constructor
  · simp [middleware, hpub]
  · intro envAlt
    simp [middleware, hpub]

/-- Witness for C6: /auth/login with no credential passes through, and the
outcome is the same in a different environment carrying a bad token. -/
theorem middleware_public_bypass_witness :
    middleware ⟨none, rejectAllVerify, false⟩ "/auth/login" = .next ∧
    middleware ⟨none, rejectAllVerify, false⟩ "/auth/login" =
      middleware ⟨some "bad", roleVerify, true⟩ "/auth/login" :=
  ⟨(middleware_public_bypass ⟨none, rejectAllVerify, false⟩ "/auth/login"
      (Or.inl (by decide))).1,
    (middleware_public_bypass ⟨none, rejectAllVerify, false⟩ "/auth/login"
      (Or.inl (by decide))).2 ⟨some "bad", roleVerify, true⟩⟩

/-- Claim C9: neither the admin nor the hr permission set contains
(attendance, check_in), so POST /api/attendance answers every
authenticated admin or hr caller with the 403 Insufficient-permissions
error and leaves the attendance table unchanged; a call that does insert a
record can only come from an employee-role caller. -/
theorem attendancePOST_admin_hr_forbidden (user : AuthenticatedUser)
    (body : Except Unit PostBody) (store : List AttendanceRow) :
    (Permission.mk "attendance" "check_in" ∉ ROLE_PERMISSIONS "admin" ∧
      Permission.mk "attendance" "check_in" ∉ ROLE_PERMISSIONS "hr") ∧
    (user.role = "admin" ∨ user.role = "hr" →
      attendancePOST (.ok user) body store =
        (.errorRes "Insufficient permissions" 403, store)) ∧
    ((attendancePOST (.ok user) body store).2 ≠ store → user.role = "employee") := by
  refine ⟨⟨by decide, by decide⟩, fun hrole => ?_, fun hins => ?_⟩
  · have hperm : hasPermission user "attendance" "check_in" = false := by
      unfold hasPermission
      rcases hrole with h | h <;> rw [h] <;> decide
    simp [attendancePOST, requirePermission, hperm]
  · by_cases hperm : hasPermission user "attendance" "check_in" = true
    · have hmem := (hasPermission_iff_mem user "attendance" "check_in").mp hperm
      unfold ROLE_PERMISSIONS at hmem
      split at hmem
      · exact absurd hmem (by decide)
      · exact absurd hmem (by decide)
      · assumption
      · exact absurd hmem (by decide)
    · rw [Bool.not_eq_true] at hperm
      simp [attendancePOST, requirePermission, hperm] at hins

/-- Witness for C9: a concrete admin caller gets the 403 error on an empty
attendance table, which stays empty. -/
theorem attendancePOST_admin_hr_forbidden_witness :
    attendancePOST (.ok exAdmin) (.ok ⟨some "2024-01-05", none, none, none⟩) [] =
      (.errorRes "Insufficient permissions" 403, []) :=
  (attendancePOST_admin_hr_forbidden exAdmin (.ok ⟨some "2024-01-05", none, none, none⟩)
    []).2.1 (Or.inl rfl)

/-- Membership in an insertDateDesc result comes from the inserted row or
the original list. -/
theorem mem_insertDateDesc (r x : AttendanceRow) (l : List AttendanceRow)
    (h : x ∈ insertDateDesc r l) : x = r ∨ x ∈ l := by
  induction l with
  | nil => simpa [insertDateDesc] using h
  | cons y ys ih =>
    unfold insertDateDesc at h
    split at h
    · rcases List.mem_cons.mp h with h1 | h2
      · exact Or.inl h1
      · exact Or.inr h2
    · rcases List.mem_cons.mp h with h1 | h2
      · exact Or.inr (List.mem_cons.mpr (Or.inl h1))
      · rcases ih h2 with h3 | h4
        · exact Or.inl h3
        · exact Or.inr (List.mem_cons.mpr (Or.inr h4))

/-- sortByDateDesc only reorders: every member was in the input. -/
theorem mem_sortByDateDesc (x : AttendanceRow) (l : List AttendanceRow)
    (h : x ∈ sortByDateDesc l) : x ∈ l := by
  induction l with
  | nil => simp [sortByDateDesc] at h
  | cons y ys ih =>
    unfold sortByDateDesc at h
    rcases mem_insertDateDesc y x _ h with h1 | h2
    · simp [h1]
    · exact List.mem_cons.mpr (Or.inr (ih h2))

/-- With a non-empty user filter, every row attendanceSelect returns
carries that user id. -/
theorem mem_attendanceSelect_user (uid : String) (fromP toP : Option String)
    (store : List AttendanceRow) (huid : uid ≠ "") (r : AttendanceRow)
    (h : r ∈ attendanceSelect (some uid) fromP toP store) : r.user_id = uid := by
  unfold attendanceSelect at h
  have h2 := mem_sortByDateDesc _ _ h
  have h3 := (List.mem_filter.mp h2).2
  unfold rowMatches at h3
  rw [Bool.and_eq_true] at h3
  have h5 := h3.1
  have hne : (uid == "") = false := by simpa using huid
  simp [hne] at h5
  exact h5

/-- An attendance row belonging to user u2. -/
def exRowU2 : AttendanceRow := ⟨"u2", "2024-01-02", none, none, "present", none⟩

/-- An attendance row belonging to exEmployee (user ue). -/
def exRowOwn : AttendanceRow := ⟨"ue", "2024-01-03", none, none, "present", none⟩

/-- An employee-role user whose id is the empty string. -/
def emptyIdEmployee : AuthenticatedUser := ⟨"", "z@x.com", "employee", "Zed", "Zero"⟩

/-- Counterexample to C10, from the JavaScript truthiness tests of the
handler. First, an employee caller (id ue) with the present-but-empty
query parameter userId="" — a parameter different from the caller's id —
is not answered with the 403 error: `if (userId && ...)` skips the guard
for the empty string and the caller gets the (empty) own-filtered record
list. Second, for a caller whose own id is the empty string the filter
`if (effectiveUserId)` is skipped entirely, and the response contains
u2's record, which does not carry the caller's id. -/
theorem attendanceGET_truthy_counterexample :
    attendanceGET (.ok exEmployee) (some "") none none [exRowU2] ≠
      .errorRes "Insufficient permissions" 403 ∧
    attendanceGET (.ok exEmployee) (some "") none none [exRowU2] = .records [] ∧
    (some "" : Option String) ≠ some exEmployee.id ∧
    attendanceGET (.ok emptyIdEmployee) none none none [exRowU2] = .records [exRowU2] ∧
    exRowU2.user_id ≠ emptyIdEmployee.id := by
  refine ⟨by decide, by decide, by decide, by decide, by decide⟩

/-- Claim C10 (amended): for every authenticated caller whose role grants
(attendance, view_own) but not (attendance, view_all), GET /api/attendance
with a non-empty userId query parameter different from the caller's id
returns the 403 Insufficient-permissions error, and in every other case —
provided the caller's id is itself non-empty, an empty id disabling the
filter — every record returned carries the caller's own user id. -/
theorem attendanceGET_viewOwn_scoped (user : AuthenticatedUser)
    (userIdParam fromP toP : Option String) (store : List AttendanceRow)
    (hown : hasPermission user "attendance" "view_own" = true)
    (hall : hasPermission user "attendance" "view_all" = false) :
    (∀ uid, userIdParam = some uid → uid ≠ "" → uid ≠ user.id →
      attendanceGET (.ok user) userIdParam fromP toP store =
        .errorRes "Insufficient permissions" 403) ∧
    (user.id ≠ "" → ∀ rows,
      attendanceGET (.ok user) userIdParam fromP toP store = .records rows →
      ∀ r ∈ rows, r.user_id = user.id) := by
  have hva : canViewAllAttendance user = false := hall
  have hvo : canViewOwnAttendance user = true := hown
  constructor
  · intro uid hp hne hneq
    subst hp
    have h1 : (uid != "") = true := by simpa using hne
    have h2 : (uid != user.id) = true := by simpa using hneq
    simp [attendanceGET, hva, hvo, h1, h2]
  · intro hid rows hres r hr
    rcases userIdParam with _ | uid
    · simp [attendanceGET, hva, hvo] at hres
      exact mem_attendanceSelect_user user.id fromP toP store hid r (hres.symm ▸ hr)
    · simp [attendanceGET, hva, hvo] at hres
      by_cases hcase : ¬uid = "" ∧ ¬uid = user.id
      · rw [if_pos hcase] at hres
        cases hres
      · rw [if_neg hcase] at hres
        injection hres with hc
        subst hc
        exact mem_attendanceSelect_user user.id fromP toP store hid r hr

/-- Witness for C10: a concrete employee caller asking for u2's records
gets the 403 error; the same caller with no userId parameter gets back
only rows carrying their own id. -/
theorem attendanceGET_viewOwn_scoped_witness :
    attendanceGET (.ok exEmployee) (some "u2") none none [exRowU2, exRowOwn] =
      .errorRes "Insufficient permissions" 403 ∧
    (∀ r ∈ [exRowOwn], r.user_id = exEmployee.id) :=
  ⟨(attendanceGET_viewOwn_scoped exEmployee (some "u2") none none [exRowU2, exRowOwn]
      (by decide) (by decide)).1 "u2" rfl (by decide) (by decide),
    (attendanceGET_viewOwn_scoped exEmployee none none none [exRowU2, exRowOwn]
      (by decide) (by decide)).2 (by decide) [exRowOwn] (by decide)⟩

end Dayflow
